import Mathlib

/-!
Verification of the shopify-customizer cue-generation scripts.

Each definition below is a shallow embedding of a function from the
repository sources (src/scripts and src/smooth_cue.py).  Machine floats
are modelled by exact reals (`ℝ`), numpy arrays by Lean lists, and the
glTF document mutated by `add_cue_customizable_layer.main` by an explicit
record that the embedded routine transforms purely.
-/

/-! ## Cylinder shell generator — src/scripts/add_cue_customizable_layer.py -/

/-- Configured segment count (add_cue_customizable_layer.py, line 28). -/
def SEGMENTS : ℕ := 32

/-- Configured cylinder radius (line 29). -/
noncomputable def RADIUS : ℝ := 2.15

/-- Configured bottom of the customizable area (line 30). -/
noncomputable def HEIGHT_START : ℝ := 0.0

/-- Configured top of the customizable area (line 31). -/
noncomputable def HEIGHT_END : ℝ := 0.365

/-- Result of `create_cylinder_mesh_data`: the four arrays it returns. -/
structure MeshData where
  positions : List (ℝ × ℝ × ℝ)
  normals : List (ℝ × ℝ × ℝ)
  uvs : List (ℝ × ℝ)
  indices : List ℕ

/-- The triangle-index loop of `create_cylinder_mesh_data` (lines 72-78):
for each segment `i`, `base = i * 2` and the two triangles
`[base, base+1, base+2]` and `[base+1, base+3, base+2]` are emitted.
These are the raw Python ints, before the `dtype=np.uint16` conversion. -/
def cylinder_raw_indices (segments : ℕ) : List ℕ :=
  (List.range segments).flatMap (fun i =>
    [i * 2, i * 2 + 1, i * 2 + 2, i * 2 + 1, i * 2 + 3, i * 2 + 2])

/-- The ring angle `(i / segments) * 2 * np.pi` of line 51. -/
noncomputable def cylinder_angle (segments i : ℕ) : ℝ :=
  ((i : ℝ) / (segments : ℝ)) * 2 * Real.pi

/-- Shallow embedding of `create_cylinder_mesh_data(segments, radius,
height_start, height_end)` (lines 34-85).  The vertex loop appends, for each
`i` in `range(segments + 1)`, a bottom vertex followed by a top vertex; the
final `np.array(indices, dtype=np.uint16)` reduces every raw index modulo
`2^16`. -/
noncomputable def create_cylinder_mesh_data
    (segments : ℕ) (radius height_start height_end : ℝ) : MeshData where
  positions := (List.range (segments + 1)).flatMap (fun i =>
    [(Real.cos (cylinder_angle segments i) * radius, height_start,
        Real.sin (cylinder_angle segments i) * radius),
     (Real.cos (cylinder_angle segments i) * radius, height_end,
        Real.sin (cylinder_angle segments i) * radius)])
  normals := (List.range (segments + 1)).flatMap (fun i =>
    [(Real.cos (cylinder_angle segments i), 0, Real.sin (cylinder_angle segments i)),
     (Real.cos (cylinder_angle segments i), 0, Real.sin (cylinder_angle segments i))])
  uvs := (List.range (segments + 1)).flatMap (fun i =>
    [((i : ℝ) / (segments : ℝ), 0), ((i : ℝ) / (segments : ℝ), 1)])
  indices := (cylinder_raw_indices segments).map (fun j => j % 65536)

/-! ### Helper lemmas about the two-per-ring list shape -/

theorem pairList_length {α : Type} (f g : ℕ → α) (m : ℕ) :
    ((List.range m).flatMap (fun i => [f i, g i])).length = 2 * m := by
  induction m with
  | zero => rfl
  | succ k ih =>
      rw [List.range_succ, List.flatMap_append, List.length_append, ih]
      simp
      omega

theorem pairList_cons {α : Type} (f g : ℕ → α) (m : ℕ) :
    (List.range (m + 1)).flatMap (fun i => [f i, g i]) =
      f 0 :: g 0 :: (List.range m).flatMap (fun i => [f (i + 1), g (i + 1)]) := by
  rw [List.range_succ_eq_map]
  simp [List.flatMap_cons, List.flatMap_map, Function.comp_def, Nat.succ_eq_add_one]

theorem pairList_getElem {α : Type} (f g : ℕ → α) (m k : ℕ) (hk : k < m) :
    ((List.range m).flatMap (fun i => [f i, g i]))[2 * k]? = some (f k) ∧
    ((List.range m).flatMap (fun i => [f i, g i]))[2 * k + 1]? = some (g k) := by
  induction m generalizing f g k with
  | zero => omega
  | succ n ih =>
      rw [pairList_cons]
      cases k with
      | zero => simp
      | succ j =>
          have hj : j < n := by omega
          have h1 : 2 * (j + 1) = 2 * j + 1 + 1 := by ring
          have h2 : 2 * (j + 1) + 1 = 2 * j + 1 + 1 + 1 := by ring
          constructor
          · rw [h1]
            simpa using (ih (fun i => f (i + 1)) (fun i => g (i + 1)) j hj).1
          · rw [h2]
            simpa using (ih (fun i => f (i + 1)) (fun i => g (i + 1)) j hj).2

theorem pairList_mem {α : Type} (f g : ℕ → α) (m : ℕ) (x : α) :
    x ∈ (List.range m).flatMap (fun i => [f i, g i]) ↔
      ∃ i < m, x = f i ∨ x = g i := by
  simp only [List.mem_flatMap, List.mem_range, List.mem_cons, List.mem_singleton,
    List.not_mem_nil, or_false]

theorem create_positions_getElem (segments : ℕ) (radius h0 h1 : ℝ) (i : ℕ)
    (hi : i ≤ segments) :
    (create_cylinder_mesh_data segments radius h0 h1).positions[2 * i]?
        = some (Real.cos (cylinder_angle segments i) * radius, h0,
                Real.sin (cylinder_angle segments i) * radius) ∧
    (create_cylinder_mesh_data segments radius h0 h1).positions[2 * i + 1]?
        = some (Real.cos (cylinder_angle segments i) * radius, h1,
                Real.sin (cylinder_angle segments i) * radius) :=
  pairList_getElem
    (fun j => (Real.cos (cylinder_angle segments j) * radius, h0,
        Real.sin (cylinder_angle segments j) * radius))
    (fun j => (Real.cos (cylinder_angle segments j) * radius, h1,
        Real.sin (cylinder_angle segments j) * radius))
    (segments + 1) i (by omega)

theorem create_normals_getElem (segments : ℕ) (radius h0 h1 : ℝ) (i : ℕ)
    (hi : i ≤ segments) :
    (create_cylinder_mesh_data segments radius h0 h1).normals[2 * i]?
        = some (Real.cos (cylinder_angle segments i), 0,
                Real.sin (cylinder_angle segments i)) ∧
    (create_cylinder_mesh_data segments radius h0 h1).normals[2 * i + 1]?
        = some (Real.cos (cylinder_angle segments i), 0,
                Real.sin (cylinder_angle segments i)) :=
  pairList_getElem
    (fun j => (Real.cos (cylinder_angle segments j), (0 : ℝ),
        Real.sin (cylinder_angle segments j)))
    (fun j => (Real.cos (cylinder_angle segments j), (0 : ℝ),
        Real.sin (cylinder_angle segments j)))
    (segments + 1) i (by omega)

theorem create_uvs_getElem (segments : ℕ) (radius h0 h1 : ℝ) (i : ℕ)
    (hi : i ≤ segments) :
    (create_cylinder_mesh_data segments radius h0 h1).uvs[2 * i]?
        = some ((i : ℝ) / (segments : ℝ), 0) ∧
    (create_cylinder_mesh_data segments radius h0 h1).uvs[2 * i + 1]?
        = some ((i : ℝ) / (segments : ℝ), 1) :=
  pairList_getElem
    (fun j => ((j : ℝ) / (segments : ℝ), (0 : ℝ)))
    (fun j => ((j : ℝ) / (segments : ℝ), (1 : ℝ)))
    (segments + 1) i (by omega)

theorem create_positions_length (segments : ℕ) (radius h0 h1 : ℝ) :
    (create_cylinder_mesh_data segments radius h0 h1).positions.length
        = 2 * (segments + 1) :=
  pairList_length _ _ _

theorem create_normals_length (segments : ℕ) (radius h0 h1 : ℝ) :
    (create_cylinder_mesh_data segments radius h0 h1).normals.length
        = 2 * (segments + 1) :=
  pairList_length _ _ _

theorem create_uvs_length (segments : ℕ) (radius h0 h1 : ℝ) :
    (create_cylinder_mesh_data segments radius h0 h1).uvs.length
        = 2 * (segments + 1) :=
  pairList_length _ _ _

theorem cylinder_raw_indices_length (m : ℕ) :
    (cylinder_raw_indices m).length = 6 * m := by
  unfold cylinder_raw_indices
  induction m with
  | zero => rfl
  | succ k ih =>
      rw [List.range_succ, List.flatMap_append, List.length_append, ih]
      simp
      omega

theorem cylinder_raw_indices_lt (m : ℕ) :
    ∀ j ∈ cylinder_raw_indices m, j ≤ 2 * m + 1 := by
  intro j hj
  unfold cylinder_raw_indices at hj
  simp only [List.mem_flatMap, List.mem_range, List.mem_cons, List.mem_singleton,
    List.not_mem_nil, or_false] at hj
  obtain ⟨i, hi, h⟩ := hj
  rcases h with h | h | h | h | h | h <;> omega

/-! ### C1 -/

/-- C1: for every segment count `n ≥ 3`, `create_cylinder_mesh_data` returns a
positions array with exactly `2(n+1)` vertices, normals and uvs arrays of that
same length, and an index array with exactly `6n` entries. -/
theorem c1_cylinder_mesh_counts (segments : ℕ) (radius height_start height_end : ℝ)
    (_h : 3 ≤ segments) :
    (create_cylinder_mesh_data segments radius height_start height_end).positions.length
        = 2 * (segments + 1) ∧
    (create_cylinder_mesh_data segments radius height_start height_end).normals.length
        = 2 * (segments + 1) ∧
    (create_cylinder_mesh_data segments radius height_start height_end).uvs.length
        = 2 * (segments + 1) ∧
    (create_cylinder_mesh_data segments radius height_start height_end).indices.length
        = 6 * segments := by
  refine ⟨pairList_length _ _ _, pairList_length _ _ _, pairList_length _ _ _, ?_⟩
  show ((cylinder_raw_indices segments).map _).length = 6 * segments
  rw [List.length_map, cylinder_raw_indices_length]

/-- Witness for C1 at the configured segment count, radius and heights. -/
theorem c1_cylinder_mesh_counts_witness :
    (create_cylinder_mesh_data 32 RADIUS HEIGHT_START HEIGHT_END).positions.length
        = 2 * (32 + 1) ∧
    (create_cylinder_mesh_data 32 RADIUS HEIGHT_START HEIGHT_END).normals.length
        = 2 * (32 + 1) ∧
    (create_cylinder_mesh_data 32 RADIUS HEIGHT_START HEIGHT_END).uvs.length
        = 2 * (32 + 1) ∧
    (create_cylinder_mesh_data 32 RADIUS HEIGHT_START HEIGHT_END).indices.length
        = 6 * 32 :=
  c1_cylinder_mesh_counts 32 RADIUS HEIGHT_START HEIGHT_END (by norm_num)

/-! ### C10 -/

/-- C10: every entry of the produced index array is strictly below the vertex
count `2(n+1)` (the largest raw emitted index being `2n+1`), and when
`2(n+1) ≤ 65536` the `uint16` conversion is lossless: the stored array equals
the raw emitted index list. -/
theorem c10_indices_in_range (segments : ℕ) (radius height_start height_end : ℝ)
    (h : 1 ≤ segments) :
    (∀ j ∈ (create_cylinder_mesh_data segments radius height_start height_end).indices,
        j < 2 * (segments + 1)) ∧
    (2 * segments + 1) ∈ cylinder_raw_indices segments ∧
    (∀ j ∈ cylinder_raw_indices segments, j ≤ 2 * segments + 1) ∧
    (2 * (segments + 1) ≤ 65536 →
      (create_cylinder_mesh_data segments radius height_start height_end).indices
        = cylinder_raw_indices segments) := by
  refine ⟨?_, ?_, cylinder_raw_indices_lt segments, ?_⟩
  · intro j hj
    show j < 2 * (segments + 1)
    have : ∃ x ∈ cylinder_raw_indices segments, x % 65536 = j := by
      simpa [create_cylinder_mesh_data, List.mem_map] using hj
    obtain ⟨x, hx, hxe⟩ := this
    have hxle : x ≤ 2 * segments + 1 := cylinder_raw_indices_lt segments x hx
    have : j ≤ x := hxe ▸ Nat.mod_le x 65536
    omega
  · unfold cylinder_raw_indices
    simp only [List.mem_flatMap, List.mem_range]
    refine ⟨segments - 1, by omega, ?_⟩
    have : (segments - 1) * 2 + 3 = 2 * segments + 1 := by omega
    simp [← this]
  · intro hsmall
    show (cylinder_raw_indices segments).map _ = _
    have : ∀ x ∈ cylinder_raw_indices segments, x % 65536 = x := by
      intro x hx
      exact Nat.mod_eq_of_lt (by have := cylinder_raw_indices_lt segments x hx; omega)
    rw [List.map_congr_left this, List.map_id']

/-- Witness for C10 at the configured segment count. -/
theorem c10_indices_in_range_witness :
    (∀ j ∈ (create_cylinder_mesh_data 32 RADIUS HEIGHT_START HEIGHT_END).indices,
        j < 2 * (32 + 1)) ∧
    (2 * 32 + 1) ∈ cylinder_raw_indices 32 ∧
    (∀ j ∈ cylinder_raw_indices 32, j ≤ 2 * 32 + 1) ∧
    (2 * (32 + 1) ≤ 65536 →
      (create_cylinder_mesh_data 32 RADIUS HEIGHT_START HEIGHT_END).indices
        = cylinder_raw_indices 32) :=
  c10_indices_in_range 32 RADIUS HEIGHT_START HEIGHT_END (by norm_num)

/-! ### C4 -/

theorem cylinder_angle_zero (segments : ℕ) : cylinder_angle segments 0 = 0 := by
  unfold cylinder_angle
  simp

theorem cylinder_angle_last (segments : ℕ) (h : segments ≠ 0) :
    cylinder_angle segments segments = 2 * Real.pi := by
  unfold cylinder_angle
  rw [div_self (by exact_mod_cast h), one_mul]

/-- C4: the u-coordinate shared by the two vertices of ring `i` equals `i/n`
for every `i ≤ n`, u is strictly increasing across rings with first value `0`
and last value `1`, and (in exact real arithmetic) ring `n` has the same two
positions as ring `0`, closing the seam. -/
theorem c4_uv_rings_and_seam (segments : ℕ) (radius height_start height_end : ℝ)
    (hseg : 3 ≤ segments) :
    (∀ i ≤ segments,
      (create_cylinder_mesh_data segments radius height_start height_end).uvs[2 * i]?
          = some ((i : ℝ) / (segments : ℝ), 0) ∧
      (create_cylinder_mesh_data segments radius height_start height_end).uvs[2 * i + 1]?
          = some ((i : ℝ) / (segments : ℝ), 1)) ∧
    (∀ i j : ℕ, i < j → j ≤ segments →
      (i : ℝ) / (segments : ℝ) < (j : ℝ) / (segments : ℝ)) ∧
    ((segments : ℝ) / (segments : ℝ) = 1) ∧
    (((0 : ℕ) : ℝ) / (segments : ℝ) = 0) ∧
    ((create_cylinder_mesh_data segments radius height_start height_end).positions[2 * segments]?
        = (create_cylinder_mesh_data segments radius height_start height_end).positions[2 * 0]?) ∧
    ((create_cylinder_mesh_data segments radius height_start height_end).positions[2 * segments + 1]?
        = (create_cylinder_mesh_data segments radius height_start height_end).positions[2 * 0 + 1]?) := by
  have hpos : (0 : ℝ) < (segments : ℝ) := by exact_mod_cast (by omega : 0 < segments)
  have hne : segments ≠ 0 := by omega
  have hclose : Real.cos (cylinder_angle segments segments) * radius
        = Real.cos (cylinder_angle segments 0) * radius ∧
      Real.sin (cylinder_angle segments segments) * radius
        = Real.sin (cylinder_angle segments 0) * radius := by
    rw [cylinder_angle_zero, cylinder_angle_last segments hne]
    rw [Real.cos_two_pi, Real.sin_two_pi, Real.cos_zero, Real.sin_zero]
    exact ⟨rfl, rfl⟩
  refine ⟨?_, ?_, div_self (ne_of_gt hpos), by simp, ?_, ?_⟩
  · intro i hi
    exact create_uvs_getElem segments radius height_start height_end i hi
  · intro i j hij hj
    rw [div_lt_div_iff_of_pos_right hpos]
    exact_mod_cast hij
  · rw [(create_positions_getElem segments radius height_start height_end segments le_rfl).1,
        (create_positions_getElem segments radius height_start height_end 0 (by omega)).1,
        hclose.1, hclose.2]
  · rw [(create_positions_getElem segments radius height_start height_end segments le_rfl).2,
        (create_positions_getElem segments radius height_start height_end 0 (by omega)).2,
        hclose.1, hclose.2]

/-- Witness for C4 at the configured parameters. -/
theorem c4_uv_rings_and_seam_witness :
    (∀ i : ℕ, i ≤ 32 →
      (create_cylinder_mesh_data 32 RADIUS HEIGHT_START HEIGHT_END).uvs[2 * i]?
          = some ((i : ℝ) / (32 : ℝ), 0) ∧
      (create_cylinder_mesh_data 32 RADIUS HEIGHT_START HEIGHT_END).uvs[2 * i + 1]?
          = some ((i : ℝ) / (32 : ℝ), 1)) ∧
    (∀ i j : ℕ, i < j → j ≤ 32 → (i : ℝ) / (32 : ℝ) < (j : ℝ) / (32 : ℝ)) ∧
    (((32 : ℕ) : ℝ) / ((32 : ℕ) : ℝ) = 1) ∧
    (((0 : ℕ) : ℝ) / ((32 : ℕ) : ℝ) = 0) ∧
    ((create_cylinder_mesh_data 32 RADIUS HEIGHT_START HEIGHT_END).positions[2 * 32]?
        = (create_cylinder_mesh_data 32 RADIUS HEIGHT_START HEIGHT_END).positions[2 * 0]?) ∧
    ((create_cylinder_mesh_data 32 RADIUS HEIGHT_START HEIGHT_END).positions[2 * 32 + 1]?
        = (create_cylinder_mesh_data 32 RADIUS HEIGHT_START HEIGHT_END).positions[2 * 0 + 1]?) :=
  c4_uv_rings_and_seam 32 RADIUS HEIGHT_START HEIGHT_END (by norm_num)

/-! ### C8 -/

/-- C8: every normal produced by `create_cylinder_mesh_data` has height
component exactly `0` and unit length; the two normals of ring `i` coincide
and equal `(cos θ, 0, sin θ)` for the ring angle `θ`; and, for a positive
radius, the ring vertices sit at `radius` times the normal direction in the
x/z plane — the normal is a positive scalar multiple of the vertex offset. -/
theorem c8_normals_radial (segments i : ℕ) (radius height_start height_end : ℝ)
    (_hseg : 1 ≤ segments) (hi : i ≤ segments) (hr : 0 < radius) :
    (∀ nv ∈ (create_cylinder_mesh_data segments radius height_start height_end).normals,
        nv.2.1 = 0 ∧ nv.1 ^ 2 + nv.2.1 ^ 2 + nv.2.2 ^ 2 = 1) ∧
    ((create_cylinder_mesh_data segments radius height_start height_end).normals[2 * i]?
        = some (Real.cos (cylinder_angle segments i), 0, Real.sin (cylinder_angle segments i))) ∧
    ((create_cylinder_mesh_data segments radius height_start height_end).normals[2 * i + 1]?
        = (create_cylinder_mesh_data segments radius height_start height_end).normals[2 * i]?) ∧
    (∃ c : ℝ, 0 < c ∧
      (create_cylinder_mesh_data segments radius height_start height_end).positions[2 * i]?
        = some (c * Real.cos (cylinder_angle segments i), height_start,
                c * Real.sin (cylinder_angle segments i)) ∧
      (create_cylinder_mesh_data segments radius height_start height_end).positions[2 * i + 1]?
        = some (c * Real.cos (cylinder_angle segments i), height_end,
                c * Real.sin (cylinder_angle segments i))) := by
  refine ⟨?_, ?_, ?_, radius, hr, ?_, ?_⟩
  · intro nv hnv
    have hmem : nv ∈ (List.range (segments + 1)).flatMap (fun j =>
        [(Real.cos (cylinder_angle segments j), (0 : ℝ),
            Real.sin (cylinder_angle segments j)),
         (Real.cos (cylinder_angle segments j), (0 : ℝ),
            Real.sin (cylinder_angle segments j))]) := hnv
    rw [pairList_mem] at hmem
    obtain ⟨j, _, hj⟩ := hmem
    have hv : nv = (Real.cos (cylinder_angle segments j), (0 : ℝ),
        Real.sin (cylinder_angle segments j)) := by
      rcases hj with hj | hj <;> exact hj
    rw [hv]
    refine ⟨rfl, ?_⟩
    have hcs := Real.cos_sq_add_sin_sq (cylinder_angle segments j)
    show Real.cos (cylinder_angle segments j) ^ 2 + (0 : ℝ) ^ 2
        + Real.sin (cylinder_angle segments j) ^ 2 = 1
    nlinarith [hcs]
  · exact (create_normals_getElem segments radius height_start height_end i hi).1
  · rw [(create_normals_getElem segments radius height_start height_end i hi).1,
        (create_normals_getElem segments radius height_start height_end i hi).2]
  · rw [(create_positions_getElem segments radius height_start height_end i hi).1]
    ring_nf
  · rw [(create_positions_getElem segments radius height_start height_end i hi).2]
    ring_nf

/-- Witness for C8 at the configured parameters, ring 8. -/
theorem c8_normals_radial_witness :
    (∀ nv ∈ (create_cylinder_mesh_data 32 RADIUS HEIGHT_START HEIGHT_END).normals,
        nv.2.1 = 0 ∧ nv.1 ^ 2 + nv.2.1 ^ 2 + nv.2.2 ^ 2 = 1) ∧
    ((create_cylinder_mesh_data 32 RADIUS HEIGHT_START HEIGHT_END).normals[2 * 8]?
        = some (Real.cos (cylinder_angle 32 8), 0, Real.sin (cylinder_angle 32 8))) ∧
    ((create_cylinder_mesh_data 32 RADIUS HEIGHT_START HEIGHT_END).normals[2 * 8 + 1]?
        = (create_cylinder_mesh_data 32 RADIUS HEIGHT_START HEIGHT_END).normals[2 * 8]?) ∧
    (∃ c : ℝ, 0 < c ∧
      (create_cylinder_mesh_data 32 RADIUS HEIGHT_START HEIGHT_END).positions[2 * 8]?
        = some (c * Real.cos (cylinder_angle 32 8), HEIGHT_START,
                c * Real.sin (cylinder_angle 32 8)) ∧
      (create_cylinder_mesh_data 32 RADIUS HEIGHT_START HEIGHT_END).positions[2 * 8 + 1]?
        = some (c * Real.cos (cylinder_angle 32 8), HEIGHT_END,
                c * Real.sin (cylinder_angle 32 8))) :=
  c8_normals_radial 32 8 RADIUS HEIGHT_START HEIGHT_END (by norm_num) (by norm_num)
    (by norm_num [RADIUS])

/-! ## glTF binary appension — add_cue_customizable_layer.main (lines 88-284) -/

/-- The local helper `pad_to_4(length)` of line 118: bytes needed to reach the
next 4-byte boundary. -/
def pad_to_4 (length : ℕ) : ℕ := (4 - length % 4) % 4

/-- The four append offsets of lines 122-127 plus the resulting buffer length
(line 149, after the four `extend` blocks of lines 130-146). -/
structure BufferLayout where
  positions_offset : ℕ
  normals_offset : ℕ
  uvs_offset : ℕ
  indices_offset : ℕ
  new_buffer_length : ℕ

/-- Offset computation of `main` (lines 112-149): `new_data_start` is
`len(existing_data)` and each subsequent offset adds the previous array's
byte length plus its alignment padding. -/
def computeLayout (existing_len positions_length normals_length uvs_length
    indices_length : ℕ) : BufferLayout where
  positions_offset := existing_len
  normals_offset := existing_len + positions_length + pad_to_4 positions_length
  uvs_offset := existing_len + positions_length + pad_to_4 positions_length
      + normals_length + pad_to_4 normals_length
  indices_offset := existing_len + positions_length + pad_to_4 positions_length
      + normals_length + pad_to_4 normals_length
      + uvs_length + pad_to_4 uvs_length
  new_buffer_length := existing_len + positions_length + pad_to_4 positions_length
      + normals_length + pad_to_4 normals_length
      + uvs_length + pad_to_4 uvs_length
      + indices_length + pad_to_4 indices_length

/-- Byte length of `positions.tobytes()`: float32 (itemsize 4), VEC3. -/
def positions_byte_length (m : MeshData) : ℕ := 4 * 3 * m.positions.length

/-- Byte length of `normals.tobytes()`: float32 (itemsize 4), VEC3. -/
def normals_byte_length (m : MeshData) : ℕ := 4 * 3 * m.normals.length

/-- Byte length of `uvs.tobytes()`: float32 (itemsize 4), VEC2. -/
def uvs_byte_length (m : MeshData) : ℕ := 4 * 2 * m.uvs.length

/-- Byte length of `indices.tobytes()`: uint16 (itemsize 2), SCALAR. -/
def indices_byte_length (m : MeshData) : ℕ := 2 * m.indices.length

/-! ### C2 (corrected) -/

/-- C2 counterexample: the code never pads the existing data itself, so with
an existing buffer of 1 byte and the segments = 3 geometry, the computed
positions offset is 1 and the normals offset is 97 — neither a multiple
of 4.  The claim fails as stated for arbitrary existing buffer content. -/
theorem c2_counterexample :
    (computeLayout 1
        (positions_byte_length (create_cylinder_mesh_data 3 1 0 1))
        (normals_byte_length (create_cylinder_mesh_data 3 1 0 1))
        (uvs_byte_length (create_cylinder_mesh_data 3 1 0 1))
        (indices_byte_length (create_cylinder_mesh_data 3 1 0 1))).positions_offset = 1 ∧
    (computeLayout 1
        (positions_byte_length (create_cylinder_mesh_data 3 1 0 1))
        (normals_byte_length (create_cylinder_mesh_data 3 1 0 1))
        (uvs_byte_length (create_cylinder_mesh_data 3 1 0 1))
        (indices_byte_length (create_cylinder_mesh_data 3 1 0 1))).normals_offset = 97 ∧
    ¬ (4 ∣ (computeLayout 1
        (positions_byte_length (create_cylinder_mesh_data 3 1 0 1))
        (normals_byte_length (create_cylinder_mesh_data 3 1 0 1))
        (uvs_byte_length (create_cylinder_mesh_data 3 1 0 1))
        (indices_byte_length (create_cylinder_mesh_data 3 1 0 1))).positions_offset) ∧
    ¬ (4 ∣ (computeLayout 1
        (positions_byte_length (create_cylinder_mesh_data 3 1 0 1))
        (normals_byte_length (create_cylinder_mesh_data 3 1 0 1))
        (uvs_byte_length (create_cylinder_mesh_data 3 1 0 1))
        (indices_byte_length (create_cylinder_mesh_data 3 1 0 1))).normals_offset) := by
  refine ⟨rfl, rfl, ?_, ?_⟩ <;> decide

/-- C2 (amended): whenever the existing data's byte length is itself 4-byte
aligned — as in any well-formed GLB binary chunk — all four computed offsets
are multiples of 4 for every geometry produced by
`create_cylinder_mesh_data`; and, unconditionally, the new buffer's total
length is the existing length plus the sum of each array's byte length plus
its padding. -/
theorem c2_offsets_aligned (segments : ℕ) (radius h0 h1 : ℝ)
    (existing_len pL nL uL iL : ℕ)
    (hal : existing_len % 4 = 0)
    (hp : pL = positions_byte_length (create_cylinder_mesh_data segments radius h0 h1))
    (hn : nL = normals_byte_length (create_cylinder_mesh_data segments radius h0 h1))
    (hu : uL = uvs_byte_length (create_cylinder_mesh_data segments radius h0 h1))
    (hi : iL = indices_byte_length (create_cylinder_mesh_data segments radius h0 h1)) :
    (4 ∣ (computeLayout existing_len pL nL uL iL).positions_offset) ∧
    (4 ∣ (computeLayout existing_len pL nL uL iL).normals_offset) ∧
    (4 ∣ (computeLayout existing_len pL nL uL iL).uvs_offset) ∧
    (4 ∣ (computeLayout existing_len pL nL uL iL).indices_offset) ∧
    (computeLayout existing_len pL nL uL iL).new_buffer_length
        = existing_len + (pL + pad_to_4 pL) + (nL + pad_to_4 nL)
            + (uL + pad_to_4 uL) + (iL + pad_to_4 iL) := by
  have e1 : pL = 4 * 3 * (2 * (segments + 1)) := by
    rw [hp]; unfold positions_byte_length
    rw [create_positions_length]
  have e2 : nL = 4 * 3 * (2 * (segments + 1)) := by
    rw [hn]; unfold normals_byte_length
    rw [create_normals_length]
  have e3 : uL = 4 * 2 * (2 * (segments + 1)) := by
    rw [hu]; unfold uvs_byte_length
    rw [create_uvs_length]
  have e4 : iL = 2 * (6 * segments) := by
    rw [hi]; unfold indices_byte_length
    show 2 * ((cylinder_raw_indices segments).map _).length = _
    rw [List.length_map, cylinder_raw_indices_length]
  unfold computeLayout pad_to_4
  simp only []
  omega

/-- Witness for the amended C2 at segments 3, aligned existing length 128. -/
theorem c2_offsets_aligned_witness :
    (4 ∣ (computeLayout 128 96 96 64 36).positions_offset) ∧
    (4 ∣ (computeLayout 128 96 96 64 36).normals_offset) ∧
    (4 ∣ (computeLayout 128 96 96 64 36).uvs_offset) ∧
    (4 ∣ (computeLayout 128 96 96 64 36).indices_offset) ∧
    (computeLayout 128 96 96 64 36).new_buffer_length
        = 128 + (96 + pad_to_4 96) + (96 + pad_to_4 96)
            + (64 + pad_to_4 64) + (36 + pad_to_4 36) :=
  c2_offsets_aligned 3 1 0 1 128 96 96 64 36 (by norm_num) (by rfl) (by rfl) (by rfl) (by rfl)

/-! ### The glTF document record and the appension routine -/

/-- A glTF bufferView as created by lines 152-182. -/
structure GBufferView where
  buffer : ℕ
  byteOffset : ℕ
  byteLength : ℕ
  target : ℕ
deriving DecidableEq

/-- A glTF accessor as created by lines 188-224; `max`/`min` model the
`positions.max(axis=0).tolist()` triples of the position accessor and are
absent on the other three. -/
structure GAccessor where
  bufferView : ℕ
  componentType : ℕ
  count : ℕ
  type : String
  max : Option (ℝ × ℝ × ℝ)
  min : Option (ℝ × ℝ × ℝ)

/-- The single primitive of lines 243-251: attribute accessor indices,
index accessor index, and material index. -/
structure GPrimitive where
  position : ℕ
  normal : ℕ
  texcoord0 : ℕ
  indices : ℕ
  material : ℕ
deriving DecidableEq

/-- A glTF mesh (lines 254-258). -/
structure GMesh where
  name : String
  primitives : List GPrimitive
deriving DecidableEq

/-- A glTF material (lines 231-238). -/
structure GMaterial where
  name : String
  baseColorFactor : List ℝ
  metallicFactor : ℝ
  roughnessFactor : ℝ

/-- A glTF node (lines 263-272); `scale = none` models a node without a
`scale` attribute (Python `None`, falsy). -/
structure GNode where
  mesh : Option ℕ
  name : String
  scale : Option (List ℝ)

/-- A glTF scene: its node index list (line 275 appends to it). -/
structure GScene where
  nodes : List ℕ

/-- The parts of the glTF document that `main` reads or mutates.  `buffers`
keeps each buffer's `byteLength`; `binary_blob` is the byte content of
buffer 0 (bytes as naturals). -/
structure GLTF where
  buffers : List ℕ
  bufferViews : List GBufferView
  accessors : List GAccessor
  meshes : List GMesh
  materials : List GMaterial
  nodes : List GNode
  scenes : List GScene
  binary_blob : List ℕ

/-- Componentwise maximum of a vertex array: `positions.max(axis=0)`.
numpy raises on an empty array; the `[]` case is unreachable in `main`. -/
noncomputable def foldMax (a : ℝ) (l : List ℝ) : ℝ := l.foldl max a

/-- Componentwise minimum, `positions.min(axis=0)`. -/
noncomputable def foldMin (a : ℝ) (l : List ℝ) : ℝ := l.foldl min a

/-- `positions.max(axis=0).tolist()` as an (x, y, z) triple. -/
noncomputable def axis_max : List (ℝ × ℝ × ℝ) → ℝ × ℝ × ℝ
  | [] => (0, 0, 0)
  | p :: ps => (foldMax p.1 (ps.map (fun q => q.1)),
                foldMax p.2.1 (ps.map (fun q => q.2.1)),
                foldMax p.2.2 (ps.map (fun q => q.2.2)))

/-- `positions.min(axis=0).tolist()` as an (x, y, z) triple. -/
noncomputable def axis_min : List (ℝ × ℝ × ℝ) → ℝ × ℝ × ℝ
  | [] => (0, 0, 0)
  | p :: ps => (foldMin p.1 (ps.map (fun q => q.1)),
                foldMin p.2.1 (ps.map (fun q => q.2.1)),
                foldMin p.2.2 (ps.map (fun q => q.2.2)))

/-- Shallow embedding of the mutation performed by `main` (lines 88-284) on
the loaded document, parametric in the generated geometry `m` and in the
four serialized byte strings (whose contents `main` obtains from
`tobytes()`; only their lengths and bytes are appended).  Python raises
(IndexError) when `buffers`, `nodes` or `scenes` is empty, modelled by
`none`.  Otherwise the routine appends four bufferViews, four accessors,
one material, one mesh and one node, each registered at its collection's
prior length, extends scene 0 with the new node index, and replaces the
binary blob by the extended, padded buffer.  -/
noncomputable def add_customizable_layer (g : GLTF) (m : MeshData)
    (positions_bytes normals_bytes uvs_bytes indices_bytes : List ℕ) : Option GLTF :=
  match g.buffers, g.nodes, g.scenes with
  | _ :: buffersRest, existing_node :: _, scene0 :: scenesRest =>
    let existing_data := g.binary_blob
    let L := computeLayout existing_data.length positions_bytes.length
        normals_bytes.length uvs_bytes.length indices_bytes.length
    let new_buffer_data := existing_data ++ positions_bytes
        ++ List.replicate (pad_to_4 positions_bytes.length) 0
        ++ normals_bytes ++ List.replicate (pad_to_4 normals_bytes.length) 0
        ++ uvs_bytes ++ List.replicate (pad_to_4 uvs_bytes.length) 0
        ++ indices_bytes ++ List.replicate (pad_to_4 indices_bytes.length) 0
    let positions_bv_idx := g.bufferViews.length
    let positions_acc_idx := g.accessors.length
    let vertex_count := m.positions.length
    let index_count := m.indices.length
    let material_idx := g.materials.length
    let mesh_idx := g.meshes.length
    let node_scale := match existing_node.scale with
      | some s => s
      | none => [1, 1, 1]
    let node_idx := g.nodes.length
    some
      { buffers := new_buffer_data.length :: buffersRest
        bufferViews := g.bufferViews ++
          [⟨0, L.positions_offset, positions_bytes.length, 34962⟩,
           ⟨0, L.normals_offset, normals_bytes.length, 34962⟩,
           ⟨0, L.uvs_offset, uvs_bytes.length, 34962⟩,
           ⟨0, L.indices_offset, indices_bytes.length, 34963⟩]
        accessors := g.accessors ++
          [⟨positions_bv_idx, 5126, vertex_count, "VEC3",
              some (axis_max m.positions), some (axis_min m.positions)⟩,
           ⟨positions_bv_idx + 1, 5126, vertex_count, "VEC3", none, none⟩,
           ⟨positions_bv_idx + 2, 5126, vertex_count, "VEC2", none, none⟩,
           ⟨positions_bv_idx + 3, 5123, index_count, "SCALAR", none, none⟩]
        materials := g.materials ++ [⟨"outside", [1, 1, 1, 1], 0, 0.5⟩]
        meshes := g.meshes ++ [⟨"CustomizableLayer",
          [⟨positions_acc_idx, positions_acc_idx + 1, positions_acc_idx + 2,
            positions_acc_idx + 3, material_idx⟩]⟩]
        nodes := g.nodes ++ [⟨some mesh_idx, "CustomizableLayerNode", some node_scale⟩]
        scenes := ⟨scene0.nodes ++ [node_idx]⟩ :: scenesRest
        binary_blob := new_buffer_data }
  | _, _, _ => none

/-! ### C3 -/

/-- C3: the appension routine is append-only.  All five collections keep
their existing entries as an unchanged prefix, gaining exactly 4/4/1/1/1 new
entries registered at the prior lengths; the first `len(existing_data)`
bytes of the buffer are unchanged; the new mesh's primitive references the
new accessors and material by their registration indices; and scene 0 gains
exactly the one new node, which references the new mesh and carries the root
node's scale (or `[1,1,1]` when the root node has none). -/
theorem c3_append_only (g : GLTF) (m : MeshData) (pb nb ub ib : List ℕ)
    (b0 : ℕ) (brest : List ℕ) (hb : g.buffers = b0 :: brest)
    (n0 : GNode) (nrest : List GNode) (hn : g.nodes = n0 :: nrest)
    (s0 : GScene) (srest : List GScene) (hs : g.scenes = s0 :: srest) :
    ∃ g', add_customizable_layer g m pb nb ub ib = some g' ∧
      g'.bufferViews.take g.bufferViews.length = g.bufferViews ∧
      g'.bufferViews.length = g.bufferViews.length + 4 ∧
      g'.accessors.take g.accessors.length = g.accessors ∧
      g'.accessors.length = g.accessors.length + 4 ∧
      g'.meshes.take g.meshes.length = g.meshes ∧
      g'.meshes.length = g.meshes.length + 1 ∧
      g'.materials.take g.materials.length = g.materials ∧
      g'.materials.length = g.materials.length + 1 ∧
      g'.nodes.take g.nodes.length = g.nodes ∧
      g'.nodes.length = g.nodes.length + 1 ∧
      g'.binary_blob.take g.binary_blob.length = g.binary_blob ∧
      g'.meshes[g.meshes.length]? = some ⟨"CustomizableLayer",
        [⟨g.accessors.length, g.accessors.length + 1, g.accessors.length + 2,
          g.accessors.length + 3, g.materials.length⟩]⟩ ∧
      g'.nodes[g.nodes.length]? = some ⟨some g.meshes.length, "CustomizableLayerNode",
        some (match n0.scale with | some s => s | none => [1, 1, 1])⟩ ∧
      g'.scenes = ⟨s0.nodes ++ [g.nodes.length]⟩ :: srest := by
  unfold add_customizable_layer
  rw [hb, hn, hs]
  refine ⟨_, rfl, ?_, ?_, ?_, ?_, ?_, ?_, ?_, ?_, ?_, ?_, ?_, ?_, ?_, ?_⟩
  · exact List.take_left _ _
  · simp
  · exact List.take_left _ _
  · simp
  · exact List.take_left _ _
  · simp
  · exact List.take_left _ _
  · simp
  · exact List.take_left _ _
  · simp
  · show (g.binary_blob ++ pb ++ _ ++ nb ++ _ ++ ub ++ _ ++ ib ++ _).take
        g.binary_blob.length = g.binary_blob
    simp only [List.append_assoc]
    exact List.take_left _ _
  · rw [List.getElem?_append_right le_rfl]
    simp
  · rw [List.getElem?_append_right le_rfl]
    simp
  · rfl

/-- Witness for C3 on a concrete one-node document and empty geometry. -/
theorem c3_append_only_witness :
    ∃ g', add_customizable_layer
        ⟨[10], [], [], [], [], [⟨none, "root", some [2, 3, 4]⟩], [⟨[0]⟩], [7, 7]⟩
        ⟨[], [], [], []⟩ [1] [2] [3] [4] = some g' ∧
      g'.bufferViews.take 0 = [] ∧ g'.bufferViews.length = 0 + 4 ∧
      g'.accessors.take 0 = [] ∧ g'.accessors.length = 0 + 4 ∧
      g'.meshes.take 0 = [] ∧ g'.meshes.length = 0 + 1 ∧
      g'.materials.take 0 = [] ∧ g'.materials.length = 0 + 1 ∧
      g'.nodes.take 1 = [⟨none, "root", some [2, 3, 4]⟩] ∧
      g'.nodes.length = 1 + 1 ∧
      g'.binary_blob.take 2 = [7, 7] ∧
      g'.meshes[0]? = some ⟨"CustomizableLayer", [⟨0, 0 + 1, 0 + 2, 0 + 3, 0⟩]⟩ ∧
      g'.nodes[1]? = some ⟨some 0, "CustomizableLayerNode",
        some (match some [(2 : ℝ), 3, 4] with | some s => s | none => [1, 1, 1])⟩ ∧
      g'.scenes = [⟨[0] ++ [1]⟩] :=
  c3_append_only
    ⟨[10], [], [], [], [], [⟨none, "root", some [2, 3, 4]⟩], [⟨[0]⟩], [7, 7]⟩
    ⟨[], [], [], []⟩ [1] [2] [3] [4] 10 [] rfl
    ⟨none, "root", some [2, 3, 4]⟩ [] rfl ⟨[0]⟩ [] rfl

/-! ### C5 -/

theorem self_le_foldMax (a : ℝ) (l : List ℝ) : a ≤ foldMax a l := by
  induction l generalizing a with
  | nil => exact le_refl a
  | cons x xs ih => exact le_trans (le_max_left a x) (ih (max a x))

theorem foldMax_le (M : ℝ) (l : List ℝ) :
    ∀ a, a ≤ M → (∀ x ∈ l, x ≤ M) → foldMax a l ≤ M := by
  induction l with
  | nil => exact fun a ha _ => ha
  | cons x xs ih =>
      intro a ha hl
      exact ih (max a x) (max_le ha (hl x (List.mem_cons_self x xs)))
        (fun y hy => hl y (List.mem_cons_of_mem x hy))

theorem le_foldMax (M : ℝ) (l : List ℝ) :
    ∀ a, (M = a ∨ M ∈ l) → M ≤ foldMax a l := by
  induction l with
  | nil =>
      rintro a (rfl | h)
      · exact le_refl _
      · cases h
  | cons x xs ih =>
      rintro a (rfl | h)
      · exact le_trans (le_max_left M x) (self_le_foldMax (max M x) xs)
      · rcases List.mem_cons.1 h with rfl | h2
        · exact le_trans (le_max_right a M) (self_le_foldMax (max a M) xs)
        · exact ih (max a x) (Or.inr h2)

theorem foldMin_le_self (a : ℝ) (l : List ℝ) : foldMin a l ≤ a := by
  induction l generalizing a with
  | nil => exact le_refl a
  | cons x xs ih => exact le_trans (ih (min a x)) (min_le_left a x)

theorem le_foldMin (M : ℝ) (l : List ℝ) :
    ∀ a, M ≤ a → (∀ x ∈ l, M ≤ x) → M ≤ foldMin a l := by
  induction l with
  | nil => exact fun a ha _ => ha
  | cons x xs ih =>
      intro a ha hl
      exact ih (min a x) (le_min ha (hl x (List.mem_cons_self x xs)))
        (fun y hy => hl y (List.mem_cons_of_mem x hy))

theorem foldMin_le (M : ℝ) (l : List ℝ) :
    ∀ a, (M = a ∨ M ∈ l) → foldMin a l ≤ M := by
  induction l with
  | nil =>
      rintro a (rfl | h)
      · exact le_refl _
      · cases h
  | cons x xs ih =>
      rintro a (rfl | h)
      · exact le_trans (foldMin_le_self (min M x) xs) (min_le_left M x)
      · rcases List.mem_cons.1 h with rfl | h2
        · exact le_trans (foldMin_le_self (min a M) xs) (min_le_right a M)
        · exact ih (min a x) (Or.inr h2)

theorem foldMax_eq (a M : ℝ) (l : List ℝ) (ha : a ≤ M) (hl : ∀ x ∈ l, x ≤ M)
    (hm : M = a ∨ M ∈ l) : foldMax a l = M :=
  le_antisymm (foldMax_le M l a ha hl) (le_foldMax M l a hm)

theorem foldMin_eq (a M : ℝ) (l : List ℝ) (ha : M ≤ a) (hl : ∀ x ∈ l, M ≤ x)
    (hm : M = a ∨ M ∈ l) : foldMin a l = M :=
  le_antisymm (foldMin_le M l a hm) (le_foldMin M l a ha hl)

/-- The componentwise fold really computes the componentwise maximum: it is an
upper bound that is attained in every component. -/
theorem axis_max_eq (l : List (ℝ × ℝ × ℝ)) (M : ℝ × ℝ × ℝ) (hne : l ≠ [])
    (h1 : ∀ q ∈ l, q.1 ≤ M.1 ∧ q.2.1 ≤ M.2.1 ∧ q.2.2 ≤ M.2.2)
    (a1 : ∃ q ∈ l, q.1 = M.1) (a2 : ∃ q ∈ l, q.2.1 = M.2.1)
    (a3 : ∃ q ∈ l, q.2.2 = M.2.2) :
    axis_max l = M := by
  match l, hne with
  | p :: ps, _ =>
    have comp : ∀ h : (ℝ × ℝ × ℝ) → ℝ, (∀ q ∈ p :: ps, h q ≤ h M) →
        (∃ q ∈ p :: ps, h q = h M) → foldMax (h p) (ps.map h) = h M := by
      intro h hub ⟨q, hq, hqe⟩
      apply foldMax_eq
      · exact hub p (List.mem_cons_self p ps)
      · intro x hx
        obtain ⟨r, hr, rfl⟩ := List.mem_map.1 hx
        exact hub r (List.mem_cons_of_mem p hr)
      · rcases List.mem_cons.1 hq with rfl | hq2
        · exact Or.inl hqe.symm
        · exact Or.inr (hqe ▸ List.mem_map_of_mem h hq2)
    have c1 := comp (fun q => q.1) (fun q hq => (h1 q hq).1) a1
    have c2 := comp (fun q => q.2.1) (fun q hq => (h1 q hq).2.1) a2
    have c3 := comp (fun q => q.2.2) (fun q hq => (h1 q hq).2.2) a3
    show (foldMax p.1 (ps.map (fun q => q.1)),
          foldMax p.2.1 (ps.map (fun q => q.2.1)),
          foldMax p.2.2 (ps.map (fun q => q.2.2))) = M
    rw [c1, c2, c3]

/-- Mirror fact for the componentwise minimum. -/
theorem axis_min_eq (l : List (ℝ × ℝ × ℝ)) (M : ℝ × ℝ × ℝ) (hne : l ≠ [])
    (h1 : ∀ q ∈ l, M.1 ≤ q.1 ∧ M.2.1 ≤ q.2.1 ∧ M.2.2 ≤ q.2.2)
    (a1 : ∃ q ∈ l, q.1 = M.1) (a2 : ∃ q ∈ l, q.2.1 = M.2.1)
    (a3 : ∃ q ∈ l, q.2.2 = M.2.2) :
    axis_min l = M := by
  match l, hne with
  | p :: ps, _ =>
    have comp : ∀ h : (ℝ × ℝ × ℝ) → ℝ, (∀ q ∈ p :: ps, h M ≤ h q) →
        (∃ q ∈ p :: ps, h q = h M) → foldMin (h p) (ps.map h) = h M := by
      intro h hub ⟨q, hq, hqe⟩
      apply foldMin_eq
      · exact hub p (List.mem_cons_self p ps)
      · intro x hx
        obtain ⟨r, hr, rfl⟩ := List.mem_map.1 hx
        exact hub r (List.mem_cons_of_mem p hr)
      · rcases List.mem_cons.1 hq with rfl | hq2
        · exact Or.inl hqe.symm
        · exact Or.inr (hqe ▸ List.mem_map_of_mem h hq2)
    have c1 := comp (fun q => q.1) (fun q hq => (h1 q hq).1) a1
    have c2 := comp (fun q => q.2.1) (fun q hq => (h1 q hq).2.1) a2
    have c3 := comp (fun q => q.2.2) (fun q hq => (h1 q hq).2.2) a3
    show (foldMin p.1 (ps.map (fun q => q.1)),
          foldMin p.2.1 (ps.map (fun q => q.2.1)),
          foldMin p.2.2 (ps.map (fun q => q.2.2))) = M
    rw [c1, c2, c3]

/-- All generated vertices lie in the cylinder's bounding box. -/
theorem create_positions_mem_bounds (segments : ℕ) (radius h0 h1 : ℝ)
    (hr : 0 ≤ radius) (hh : h0 ≤ h1) :
    ∀ p ∈ (create_cylinder_mesh_data segments radius h0 h1).positions,
      (-radius ≤ p.1 ∧ p.1 ≤ radius) ∧ (h0 ≤ p.2.1 ∧ p.2.1 ≤ h1) ∧
      (-radius ≤ p.2.2 ∧ p.2.2 ≤ radius) := by
  intro p hp
  have hm : p ∈ (List.range (segments + 1)).flatMap (fun i =>
      [(Real.cos (cylinder_angle segments i) * radius, h0,
          Real.sin (cylinder_angle segments i) * radius),
       (Real.cos (cylinder_angle segments i) * radius, h1,
          Real.sin (cylinder_angle segments i) * radius)]) := hp
  rw [pairList_mem] at hm
  obtain ⟨i, _, hcase⟩ := hm
  have hc1 := Real.neg_one_le_cos (cylinder_angle segments i)
  have hc2 := Real.cos_le_one (cylinder_angle segments i)
  have hs1 := Real.neg_one_le_sin (cylinder_angle segments i)
  have hs2 := Real.sin_le_one (cylinder_angle segments i)
  have mc1 := mul_le_mul_of_nonneg_right hc1 hr
  have mc2 := mul_le_mul_of_nonneg_right hc2 hr
  have ms1 := mul_le_mul_of_nonneg_right hs1 hr
  have ms2 := mul_le_mul_of_nonneg_right hs2 hr
  rcases hcase with rfl | rfl <;> dsimp only <;>
    exact ⟨⟨by linarith, by linarith⟩, ⟨by linarith, by linarith⟩,
           ⟨by linarith, by linarith⟩⟩

/-- The bottom vertex of ring `i` is in the generated position array. -/
theorem create_positions_ring_mem_bot (segments i : ℕ) (radius h0 h1 : ℝ)
    (hi : i ≤ segments) :
    (Real.cos (cylinder_angle segments i) * radius, h0,
        Real.sin (cylinder_angle segments i) * radius)
      ∈ (create_cylinder_mesh_data segments radius h0 h1).positions := by
  show _ ∈ (List.range (segments + 1)).flatMap (fun j =>
      [(Real.cos (cylinder_angle segments j) * radius, h0,
          Real.sin (cylinder_angle segments j) * radius),
       (Real.cos (cylinder_angle segments j) * radius, h1,
          Real.sin (cylinder_angle segments j) * radius)])
  rw [pairList_mem]
  exact ⟨i, by omega, Or.inl rfl⟩

/-- The top vertex of ring `i` is in the generated position array. -/
theorem create_positions_ring_mem_top (segments i : ℕ) (radius h0 h1 : ℝ)
    (hi : i ≤ segments) :
    (Real.cos (cylinder_angle segments i) * radius, h1,
        Real.sin (cylinder_angle segments i) * radius)
      ∈ (create_cylinder_mesh_data segments radius h0 h1).positions := by
  show _ ∈ (List.range (segments + 1)).flatMap (fun j =>
      [(Real.cos (cylinder_angle segments j) * radius, h0,
          Real.sin (cylinder_angle segments j) * radius),
       (Real.cos (cylinder_angle segments j) * radius, h1,
          Real.sin (cylinder_angle segments j) * radius)])
  rw [pairList_mem]
  exact ⟨i, by omega, Or.inr rfl⟩

theorem cos_cylinder_angle_32_0 : Real.cos (cylinder_angle 32 0) = 1 := by
  rw [cylinder_angle_zero, Real.cos_zero]

theorem sin_cylinder_angle_32_8 : Real.sin (cylinder_angle 32 8) = 1 := by
  have : cylinder_angle 32 8 = Real.pi / 2 := by
    unfold cylinder_angle
    push_cast
    ring
  rw [this, Real.sin_pi_div_two]

theorem cos_cylinder_angle_32_16 : Real.cos (cylinder_angle 32 16) = -1 := by
  have : cylinder_angle 32 16 = Real.pi := by
    unfold cylinder_angle
    push_cast
    ring
  rw [this, Real.cos_pi]

theorem sin_cylinder_angle_32_24 : Real.sin (cylinder_angle 32 24) = -1 := by
  have : cylinder_angle 32 24 = Real.pi + Real.pi / 2 := by
    unfold cylinder_angle
    push_cast
    ring
  rw [this, Real.sin_add, Real.sin_pi, Real.cos_pi, Real.sin_pi_div_two,
      Real.cos_pi_div_two]
  ring

/-- C5: the position accessor registered by the appension routine carries
`max`/`min` fields equal to the true componentwise maximum and minimum of the
generated position array; for the configured cylinder (radius 2.15, heights
0 to 0.365, 32 segments) these bounds are exactly `(2.15, 0.365, 2.15)` and
`(-2.15, 0, -2.15)`: every vertex lies within them and each bound is attained
by some vertex. -/
theorem c5_position_accessor_bounds (g : GLTF) (pb nb ub ib : List ℕ)
    (b0 : ℕ) (brest : List ℕ) (hb : g.buffers = b0 :: brest)
    (n0 : GNode) (nrest : List GNode) (hn : g.nodes = n0 :: nrest)
    (s0 : GScene) (srest : List GScene) (hs : g.scenes = s0 :: srest) :
    ∃ g', add_customizable_layer g
        (create_cylinder_mesh_data SEGMENTS RADIUS HEIGHT_START HEIGHT_END) pb nb ub ib
      = some g' ∧
    g'.accessors[g.accessors.length]? = some
      ⟨g.bufferViews.length, 5126,
       (create_cylinder_mesh_data SEGMENTS RADIUS HEIGHT_START HEIGHT_END).positions.length,
       "VEC3",
       some (axis_max (create_cylinder_mesh_data SEGMENTS RADIUS HEIGHT_START
          HEIGHT_END).positions),
       some (axis_min (create_cylinder_mesh_data SEGMENTS RADIUS HEIGHT_START
          HEIGHT_END).positions)⟩ ∧
    (∀ p ∈ (create_cylinder_mesh_data SEGMENTS RADIUS HEIGHT_START HEIGHT_END).positions,
      (-RADIUS ≤ p.1 ∧ p.1 ≤ RADIUS) ∧ (HEIGHT_START ≤ p.2.1 ∧ p.2.1 ≤ HEIGHT_END) ∧
      (-RADIUS ≤ p.2.2 ∧ p.2.2 ≤ RADIUS)) ∧
    (∃ p ∈ (create_cylinder_mesh_data SEGMENTS RADIUS HEIGHT_START HEIGHT_END).positions,
      p.1 = RADIUS) ∧
    (∃ p ∈ (create_cylinder_mesh_data SEGMENTS RADIUS HEIGHT_START HEIGHT_END).positions,
      p.2.1 = HEIGHT_END) ∧
    (∃ p ∈ (create_cylinder_mesh_data SEGMENTS RADIUS HEIGHT_START HEIGHT_END).positions,
      p.2.2 = RADIUS) ∧
    (∃ p ∈ (create_cylinder_mesh_data SEGMENTS RADIUS HEIGHT_START HEIGHT_END).positions,
      p.1 = -RADIUS) ∧
    (∃ p ∈ (create_cylinder_mesh_data SEGMENTS RADIUS HEIGHT_START HEIGHT_END).positions,
      p.2.1 = HEIGHT_START) ∧
    (∃ p ∈ (create_cylinder_mesh_data SEGMENTS RADIUS HEIGHT_START HEIGHT_END).positions,
      p.2.2 = -RADIUS) ∧
    axis_max (create_cylinder_mesh_data SEGMENTS RADIUS HEIGHT_START HEIGHT_END).positions
      = (RADIUS, HEIGHT_END, RADIUS) ∧
    axis_min (create_cylinder_mesh_data SEGMENTS RADIUS HEIGHT_START HEIGHT_END).positions
      = (-RADIUS, HEIGHT_START, -RADIUS) := by
  have hrpos : (0 : ℝ) ≤ RADIUS := by norm_num [RADIUS]
  have hh : HEIGHT_START ≤ HEIGHT_END := by norm_num [HEIGHT_START, HEIGHT_END]
  have hbounds := create_positions_mem_bounds SEGMENTS RADIUS HEIGHT_START HEIGHT_END
    hrpos hh
  have hxmax : ∃ p ∈ (create_cylinder_mesh_data SEGMENTS RADIUS HEIGHT_START
      HEIGHT_END).positions, p.1 = RADIUS := by
    refine ⟨_, create_positions_ring_mem_bot 32 0 RADIUS HEIGHT_START HEIGHT_END
      (by omega), ?_⟩
    dsimp only
    rw [cos_cylinder_angle_32_0, one_mul]
  have hymax : ∃ p ∈ (create_cylinder_mesh_data SEGMENTS RADIUS HEIGHT_START
      HEIGHT_END).positions, p.2.1 = HEIGHT_END := by
    exact ⟨_, create_positions_ring_mem_top 32 0 RADIUS HEIGHT_START HEIGHT_END
      (by omega), rfl⟩
  have hzmax : ∃ p ∈ (create_cylinder_mesh_data SEGMENTS RADIUS HEIGHT_START
      HEIGHT_END).positions, p.2.2 = RADIUS := by
    refine ⟨_, create_positions_ring_mem_bot 32 8 RADIUS HEIGHT_START HEIGHT_END
      (by omega), ?_⟩
    dsimp only
    rw [sin_cylinder_angle_32_8, one_mul]
  have hxmin : ∃ p ∈ (create_cylinder_mesh_data SEGMENTS RADIUS HEIGHT_START
      HEIGHT_END).positions, p.1 = -RADIUS := by
    refine ⟨_, create_positions_ring_mem_bot 32 16 RADIUS HEIGHT_START HEIGHT_END
      (by omega), ?_⟩
    dsimp only
    rw [cos_cylinder_angle_32_16, neg_one_mul]
  have hymin : ∃ p ∈ (create_cylinder_mesh_data SEGMENTS RADIUS HEIGHT_START
      HEIGHT_END).positions, p.2.1 = HEIGHT_START := by
    exact ⟨_, create_positions_ring_mem_bot 32 0 RADIUS HEIGHT_START HEIGHT_END
      (by omega), rfl⟩
  have hzmin : ∃ p ∈ (create_cylinder_mesh_data SEGMENTS RADIUS HEIGHT_START
      HEIGHT_END).positions, p.2.2 = -RADIUS := by
    refine ⟨_, create_positions_ring_mem_bot 32 24 RADIUS HEIGHT_START HEIGHT_END
      (by omega), ?_⟩
    dsimp only
    rw [sin_cylinder_angle_32_24, neg_one_mul]
  have hne : (create_cylinder_mesh_data SEGMENTS RADIUS HEIGHT_START
      HEIGHT_END).positions ≠ [] := by
    apply List.length_pos.mp
    rw [create_positions_length]
    omega
  have hmax : axis_max (create_cylinder_mesh_data SEGMENTS RADIUS HEIGHT_START
      HEIGHT_END).positions = (RADIUS, HEIGHT_END, RADIUS) := by
    apply axis_max_eq _ _ hne
    · intro q hq
      obtain ⟨⟨_, h1⟩, ⟨_, h2⟩, _, h3⟩ := hbounds q hq
      exact ⟨h1, h2, h3⟩
    · exact hxmax
    · exact hymax
    · exact hzmax
  have hmin : axis_min (create_cylinder_mesh_data SEGMENTS RADIUS HEIGHT_START
      HEIGHT_END).positions = (-RADIUS, HEIGHT_START, -RADIUS) := by
    apply axis_min_eq _ _ hne
    · intro q hq
      obtain ⟨⟨h1, _⟩, ⟨h2, _⟩, h3, _⟩ := hbounds q hq
      exact ⟨h1, h2, h3⟩
    · exact hxmin
    · exact hymin
    · exact hzmin
  unfold add_customizable_layer
  rw [hb, hn, hs]
  refine ⟨_, rfl, ?_, hbounds, hxmax, hymax, hzmax, hxmin, hymin, hzmin, hmax, hmin⟩
  rw [List.getElem?_append_right le_rfl]
  simp

/-- Witness for C5 on a concrete one-node document. -/
theorem c5_position_accessor_bounds_witness :
    ∃ g', add_customizable_layer
        ⟨[4], [], [], [], [], [⟨none, "n", none⟩], [⟨[]⟩], []⟩
        (create_cylinder_mesh_data SEGMENTS RADIUS HEIGHT_START HEIGHT_END) [] [] [] []
      = some g' ∧
    g'.accessors[0]? = some
      ⟨0, 5126,
       (create_cylinder_mesh_data SEGMENTS RADIUS HEIGHT_START HEIGHT_END).positions.length,
       "VEC3",
       some (axis_max (create_cylinder_mesh_data SEGMENTS RADIUS HEIGHT_START
          HEIGHT_END).positions),
       some (axis_min (create_cylinder_mesh_data SEGMENTS RADIUS HEIGHT_START
          HEIGHT_END).positions)⟩ ∧
    (∀ p ∈ (create_cylinder_mesh_data SEGMENTS RADIUS HEIGHT_START HEIGHT_END).positions,
      (-RADIUS ≤ p.1 ∧ p.1 ≤ RADIUS) ∧ (HEIGHT_START ≤ p.2.1 ∧ p.2.1 ≤ HEIGHT_END) ∧
      (-RADIUS ≤ p.2.2 ∧ p.2.2 ≤ RADIUS)) ∧
    (∃ p ∈ (create_cylinder_mesh_data SEGMENTS RADIUS HEIGHT_START HEIGHT_END).positions,
      p.1 = RADIUS) ∧
    (∃ p ∈ (create_cylinder_mesh_data SEGMENTS RADIUS HEIGHT_START HEIGHT_END).positions,
      p.2.1 = HEIGHT_END) ∧
    (∃ p ∈ (create_cylinder_mesh_data SEGMENTS RADIUS HEIGHT_START HEIGHT_END).positions,
      p.2.2 = RADIUS) ∧
    (∃ p ∈ (create_cylinder_mesh_data SEGMENTS RADIUS HEIGHT_START HEIGHT_END).positions,
      p.1 = -RADIUS) ∧
    (∃ p ∈ (create_cylinder_mesh_data SEGMENTS RADIUS HEIGHT_START HEIGHT_END).positions,
      p.2.1 = HEIGHT_START) ∧
    (∃ p ∈ (create_cylinder_mesh_data SEGMENTS RADIUS HEIGHT_START HEIGHT_END).positions,
      p.2.2 = -RADIUS) ∧
    axis_max (create_cylinder_mesh_data SEGMENTS RADIUS HEIGHT_START HEIGHT_END).positions
      = (RADIUS, HEIGHT_END, RADIUS) ∧
    axis_min (create_cylinder_mesh_data SEGMENTS RADIUS HEIGHT_START HEIGHT_END).positions
      = (-RADIUS, HEIGHT_START, -RADIUS) :=
  c5_position_accessor_bounds
    ⟨[4], [], [], [], [], [⟨none, "n", none⟩], [⟨[]⟩], []⟩ [] [] [] []
    4 [] rfl ⟨none, "n", none⟩ [] rfl ⟨[]⟩ [] rfl

/-! ## Cylindrical UV projection — create_cue_butt.py and generate_cue.py -/

/-- Python `math.atan2(y, x)`: angle of the point `(x, y)`, in `[-π, π]`. -/
noncomputable def atan2 (y x : ℝ) : ℝ :=
  if 0 < x then Real.arctan (y / x)
  else if x < 0 then
    (if 0 ≤ y then Real.arctan (y / x) + Real.pi else Real.arctan (y / x) - Real.pi)
  else
    (if 0 < y then Real.pi / 2 else if y < 0 then -(Real.pi / 2) else 0)

/-- Python `min` over a list of floats (the `[]` case never occurs: the
sources call it on the vertex list of an existing mesh). -/
noncomputable def pymin : List ℝ → ℝ
  | [] => 0
  | x :: xs => xs.foldl min x

/-- Python `max` over a list of floats. -/
noncomputable def pymax : List ℝ → ℝ
  | [] => 0
  | x :: xs => xs.foldl max x

/-- A mesh face as both scripts see it: its normal and the vertex indices of
its loops. -/
structure BFace where
  normal : ℝ × ℝ × ℝ
  loops : List ℕ

/-- The mesh data the two UV routines read: vertex coordinates and faces. -/
structure BMesh where
  verts : List (ℝ × ℝ × ℝ)
  faces : List BFace

/-- Shallow embedding of `unwrap_cylinder_side_only(obj, uv_aspect)`
(create_cue_butt.py lines 119-185), returning the per-face loop UVs it
writes.  Cap faces (`abs(normal.z) > 0.9`) are collapsed to the single point
`(0.5, 0.005)`; side faces get `u = (atan2(y,x)+π)/2π` and
`v = (z−min_z)/z_range` (or `0.5` on a degenerate mesh).  `uv_aspect` is
unused by the source body and therefore omitted. -/
noncomputable def unwrap_cylinder_side_only (m : BMesh) : List (List (ℝ × ℝ)) :=
  let min_z := pymin (m.verts.map (fun v => v.2.2))
  let max_z := pymax (m.verts.map (fun v => v.2.2))
  let z_range := max_z - min_z
  m.faces.map (fun face =>
    if |face.normal.2.2| > 0.9 then
      face.loops.map (fun _ => ((0.5 : ℝ), (0.005 : ℝ)))
    else
      face.loops.map (fun vi =>
        let co := m.verts.getD vi (0, 0, 0)
        let u := (atan2 co.2.1 co.1 + Real.pi) / (2 * Real.pi)
        let v := if z_range > 0 then (co.2.2 - min_z) / z_range else (0.5 : ℝ)
        (u, v)))

/-- Shallow embedding of `apply_cylindrical_uv_proper(obj)` (generate_cue.py
lines 191-249), parametric in the object's world transform
(`obj.matrix_world @ v`).  Every polygon — end caps included — receives the
cylindrical formula; there is no cap special case in this function. -/
noncomputable def apply_cylindrical_uv_proper (world : ℝ × ℝ × ℝ → ℝ × ℝ × ℝ)
    (m : BMesh) : List (List (ℝ × ℝ)) :=
  let min_z := pymin (m.verts.map (fun v => (world v).2.2))
  let max_z := pymax (m.verts.map (fun v => (world v).2.2))
  let z_range := if max_z > min_z then max_z - min_z else 1
  m.faces.map (fun poly =>
    poly.loops.map (fun vi =>
      let world_co := world (m.verts.getD vi (0, 0, 0))
      let u := (atan2 world_co.2.1 world_co.1 + Real.pi) / (2 * Real.pi)
      let v := (world_co.2.2 - min_z) / z_range
      (u, v)))

/-! ### C6 (corrected) -/

/-- C6 counterexample: `apply_cylindrical_uv_proper` has no end-cap branch.
On a mesh whose single face is a cap (normal `(0,0,1)`, so the axis
component dominates), its two vertices `(1,0,0)` and `(0,1,0)` receive the
distinct UVs `(1/2, 0)` and `(3/4, 0)` — not one shared degenerate point,
contradicting the claim for this cited routine. -/
theorem c6_counterexample :
    |((⟨(0, 0, 1), [0, 1]⟩ : BFace).normal.2.2)| > 0.9 ∧
    (apply_cylindrical_uv_proper id
        ⟨[(1, 0, 0), (0, 1, 0)], [⟨(0, 0, 1), [0, 1]⟩]⟩)[0]?
      = some [((1 : ℝ) / 2, 0), ((3 : ℝ) / 4, 0)] ∧
    ((1 : ℝ) / 2, (0 : ℝ)) ≠ ((3 : ℝ) / 4, (0 : ℝ)) := by
  have hpi := Real.pi_pos
  refine ⟨by norm_num, ?_, by norm_num⟩
  unfold apply_cylindrical_uv_proper pymin pymax atan2
  norm_num
  constructor
  · rw [div_eq_div_iff (by positivity) (by norm_num)]
    ring
  · rw [div_eq_div_iff (by positivity) (by norm_num)]
    ring

/-- C6 (amended): in `unwrap_cylinder_side_only`, every vertex of a side face
(normal not dominated by the cylinder axis, `|n.z| ≤ 0.9`) receives
`u = (atan2(y,x)+π)/2π` and `v = (z−z_min)/(z_max−z_min)` with the bounds
taken over all mesh vertices, while every vertex of a cap face receives the
one degenerate point `(0.5, 0.005)`; `apply_cylindrical_uv_proper`, by
contrast, applies the same side-face formula to every face, end caps
included. -/
theorem c6_cylindrical_uv (m : BMesh) (fi : ℕ) (face : BFace)
    (hface : m.faces[fi]? = some face) :
    ((|face.normal.2.2| > 0.9) →
      (unwrap_cylinder_side_only m)[fi]?
        = some (face.loops.map (fun _ => ((0.5 : ℝ), (0.005 : ℝ))))) ∧
    (¬ (|face.normal.2.2| > 0.9) →
      pymin (m.verts.map (fun v => v.2.2)) < pymax (m.verts.map (fun v => v.2.2)) →
      (unwrap_cylinder_side_only m)[fi]?
        = some (face.loops.map (fun vi =>
            ((atan2 (m.verts.getD vi (0, 0, 0)).2.1 (m.verts.getD vi (0, 0, 0)).1
                + Real.pi) / (2 * Real.pi),
             ((m.verts.getD vi (0, 0, 0)).2.2 - pymin (m.verts.map (fun v => v.2.2)))
               / (pymax (m.verts.map (fun v => v.2.2))
                   - pymin (m.verts.map (fun v => v.2.2))))))) ∧
    (∀ world : ℝ × ℝ × ℝ → ℝ × ℝ × ℝ,
      pymin (m.verts.map (fun v => (world v).2.2))
          < pymax (m.verts.map (fun v => (world v).2.2)) →
      (apply_cylindrical_uv_proper world m)[fi]?
        = some (face.loops.map (fun vi =>
            ((atan2 (world (m.verts.getD vi (0, 0, 0))).2.1
                (world (m.verts.getD vi (0, 0, 0))).1 + Real.pi) / (2 * Real.pi),
             ((world (m.verts.getD vi (0, 0, 0))).2.2
                - pymin (m.verts.map (fun v => (world v).2.2)))
               / (pymax (m.verts.map (fun v => (world v).2.2))
                   - pymin (m.verts.map (fun v => (world v).2.2))))))) := by
  refine ⟨?_, ?_, ?_⟩
  · intro hcap
    unfold unwrap_cylinder_side_only
    rw [List.getElem?_map, hface]
    simp [hcap]
  · intro hcap hz
    have hpos : (0 : ℝ) < pymax (m.verts.map (fun v => v.2.2))
        - pymin (m.verts.map (fun v => v.2.2)) := sub_pos.mpr hz
    unfold unwrap_cylinder_side_only
    rw [List.getElem?_map, hface]
    simp [hcap, hpos]
  · intro world hz
    unfold apply_cylindrical_uv_proper
    rw [List.getElem?_map, hface]
    simp [hz]

/-- Witness for the amended C6 on a one-face mesh with a side-face normal. -/
theorem c6_cylindrical_uv_witness :
    ((|((⟨(1, 0, 0), [0, 1]⟩ : BFace)).normal.2.2| > 0.9) →
      (unwrap_cylinder_side_only ⟨[(1, 0, 0), (1, 0, 2)], [⟨(1, 0, 0), [0, 1]⟩]⟩)[0]?
        = some (((⟨(1, 0, 0), [0, 1]⟩ : BFace)).loops.map
            (fun _ => ((0.5 : ℝ), (0.005 : ℝ))))) ∧
    (¬ (|((⟨(1, 0, 0), [0, 1]⟩ : BFace)).normal.2.2| > 0.9) →
      pymin (([((1 : ℝ), (0 : ℝ), (0 : ℝ)), (1, 0, 2)]).map (fun v => v.2.2))
          < pymax (([((1 : ℝ), (0 : ℝ), (0 : ℝ)), (1, 0, 2)]).map (fun v => v.2.2)) →
      (unwrap_cylinder_side_only ⟨[(1, 0, 0), (1, 0, 2)], [⟨(1, 0, 0), [0, 1]⟩]⟩)[0]?
        = some (((⟨(1, 0, 0), [0, 1]⟩ : BFace)).loops.map (fun vi =>
            ((atan2 (([((1 : ℝ), (0 : ℝ), (0 : ℝ)), (1, 0, 2)]).getD vi (0, 0, 0)).2.1
                (([((1 : ℝ), (0 : ℝ), (0 : ℝ)), (1, 0, 2)]).getD vi (0, 0, 0)).1
                + Real.pi) / (2 * Real.pi),
             ((([((1 : ℝ), (0 : ℝ), (0 : ℝ)), (1, 0, 2)]).getD vi (0, 0, 0)).2.2
                - pymin (([((1 : ℝ), (0 : ℝ), (0 : ℝ)), (1, 0, 2)]).map (fun v => v.2.2)))
               / (pymax (([((1 : ℝ), (0 : ℝ), (0 : ℝ)), (1, 0, 2)]).map (fun v => v.2.2))
                   - pymin (([((1 : ℝ), (0 : ℝ), (0 : ℝ)), (1, 0, 2)]).map
                       (fun v => v.2.2))))))) ∧
    (∀ world : ℝ × ℝ × ℝ → ℝ × ℝ × ℝ,
      pymin (([((1 : ℝ), (0 : ℝ), (0 : ℝ)), (1, 0, 2)]).map (fun v => (world v).2.2))
          < pymax (([((1 : ℝ), (0 : ℝ), (0 : ℝ)), (1, 0, 2)]).map (fun v => (world v).2.2)) →
      (apply_cylindrical_uv_proper world
          ⟨[(1, 0, 0), (1, 0, 2)], [⟨(1, 0, 0), [0, 1]⟩]⟩)[0]?
        = some (((⟨(1, 0, 0), [0, 1]⟩ : BFace)).loops.map (fun vi =>
            ((atan2 (world (([((1 : ℝ), (0 : ℝ), (0 : ℝ)), (1, 0, 2)]).getD vi (0, 0, 0))).2.1
                (world (([((1 : ℝ), (0 : ℝ), (0 : ℝ)), (1, 0, 2)]).getD vi (0, 0, 0))).1
                + Real.pi) / (2 * Real.pi),
             ((world (([((1 : ℝ), (0 : ℝ), (0 : ℝ)), (1, 0, 2)]).getD vi (0, 0, 0))).2.2
                - pymin (([((1 : ℝ), (0 : ℝ), (0 : ℝ)), (1, 0, 2)]).map
                    (fun v => (world v).2.2)))
               / (pymax (([((1 : ℝ), (0 : ℝ), (0 : ℝ)), (1, 0, 2)]).map
                     (fun v => (world v).2.2))
                   - pymin (([((1 : ℝ), (0 : ℝ), (0 : ℝ)), (1, 0, 2)]).map
                       (fun v => (world v).2.2))))))) :=
  c6_cylindrical_uv ⟨[(1, 0, 0), (1, 0, 2)], [⟨(1, 0, 0), [0, 1]⟩]⟩ 0
    ⟨(1, 0, 0), [0, 1]⟩ rfl

/-! ## Tapered-cylinder section generators -/

/-- Distance of a Blender vertex from the Z axis,
`math.sqrt(v.co.x ** 2 + v.co.y ** 2)`. -/
noncomputable def radial_dist (v : ℝ × ℝ × ℝ) : ℝ := Real.sqrt (v.1 ^ 2 + v.2.1 ^ 2)

/-- Per-vertex taper of `generate_cue.create_tapered_cylinder` (lines
157-179): mesh-local `z_min = -length/2`, normalized height clamped to
`[0,1]`, radius interpolated bottom→top, vertices within `1e-4` of the axis
left untouched. -/
noncomputable def create_tapered_cylinder_vertex (radius_top radius_bottom length : ℝ)
    (v : ℝ × ℝ × ℝ) : ℝ × ℝ × ℝ :=
  let z_min := -(length / 2)
  let t0 := if length > 0 then (v.2.2 - z_min) / length else 0.5
  let t := max 0 (min 1 t0)
  let target_radius := radius_bottom + (radius_top - radius_bottom) * t
  let current_dist := Real.sqrt (v.1 ^ 2 + v.2.1 ^ 2)
  if current_dist > 0.0001 then
    (v.1 * (target_radius / current_dist), v.2.1 * (target_radius / current_dist), v.2.2)
  else v

/-- Per-vertex taper of `create_cue_export.create_cue_section` (lines 49-57).
Note the source divides `(v.co.z - z_start)` by `length` even though `v.co.z`
is a mesh-local coordinate in `[-length/2, length/2]` while `z_start` is the
section's world placement. -/
noncomputable def create_cue_section_vertex (r_start r_end length z_start : ℝ)
    (v : ℝ × ℝ × ℝ) : ℝ × ℝ × ℝ :=
  let local_z0 := if length > 0 then (v.2.2 - z_start) / length else 0
  let local_z := max 0 (min 1 local_z0)
  let radius := r_start + (r_end - r_start) * local_z
  let current_dist := Real.sqrt (v.1 ^ 2 + v.2.1 ^ 2)
  if current_dist > 0.001 then
    (v.1 * (radius / current_dist), v.2.1 * (radius / current_dist), v.2.2)
  else v

/-- Per-vertex taper of `create_cue.create_cue_stick` (lines 76-89): when the
radii differ, vertices in the top half (`z > 0`) are scaled by
`r_end / r_start`; all other vertices are untouched. -/
noncomputable def create_cue_stick_vertex (r_start r_end : ℝ)
    (v : ℝ × ℝ × ℝ) : ℝ × ℝ × ℝ :=
  if r_start ≠ r_end ∧ v.2.2 > 0 then
    (v.1 * (r_end / r_start), v.2.1 * (r_end / r_start), v.2.2)
  else v

theorem radial_dist_scale (x y z s : ℝ) (hs : 0 ≤ s) :
    radial_dist (x * s, y * s, z) = s * radial_dist (x, y, z) := by
  unfold radial_dist
  dsimp only
  rw [show (x * s) ^ 2 + (y * s) ^ 2 = s ^ 2 * (x ^ 2 + y ^ 2) by ring,
      Real.sqrt_mul (sq_nonneg s), Real.sqrt_sq hs]

theorem taper_scale_radial (target : ℝ) (v : ℝ × ℝ × ℝ) (htarget : 0 ≤ target)
    (hd : 0 < radial_dist v) :
    radial_dist (v.1 * (target / radial_dist v), v.2.1 * (target / radial_dist v), v.2.2)
      = target := by
  rw [radial_dist_scale _ _ _ _ (div_nonneg htarget hd.le)]
  exact div_mul_cancel₀ target (ne_of_gt hd)

/-! ### C7 (corrected) -/

/-- C7 counterexample: in `create_cue_section` (create_cue_export.py) the
interpolation parameter mixes local coordinates with the world `z_start`.
With `r_start = 1`, `r_end = 3`, `length = 2`, `z_start = 0`, the top-rim
vertex `(1, 0, 1)` (local `z = length/2`, normalized height `t = 1`) is
scaled to radius `2` — the claimed interpolation at `t = 1` would give `3`. -/
theorem c7_counterexample :
    create_cue_section_vertex 1 3 2 0 (1, 0, 1) = (2, 0, 1) ∧
    radial_dist (create_cue_section_vertex 1 3 2 0 (1, 0, 1)) = 2 ∧
    ((1 : ℝ) + (3 - 1) * ((1 - -(2 / 2)) / 2)) = 3 ∧
    (2 : ℝ) ≠ 3 := by
  have hd : Real.sqrt ((1 : ℝ) ^ 2 + 0 ^ 2) = 1 := by
    rw [show ((1 : ℝ) ^ 2 + 0 ^ 2) = 1 by norm_num, Real.sqrt_one]
  have hv : create_cue_section_vertex 1 3 2 0 (1, 0, 1) = (2, 0, 1) := by
    unfold create_cue_section_vertex
    dsimp only
    rw [if_pos (by norm_num : (2 : ℝ) > 0), hd]
    rw [if_pos (by norm_num : (1 : ℝ) > 0.001)]
    have hmm : max (0 : ℝ) (min 1 ((1 - 0) / 2)) = 1 / 2 := by
      rw [show ((1 : ℝ) - 0) / 2 = 1 / 2 by norm_num]
      rw [min_eq_right (by norm_num : (1 : ℝ) / 2 ≤ 1),
          max_eq_right (by norm_num : (0 : ℝ) ≤ 1 / 2)]
    rw [hmm]
    norm_num
  refine ⟨hv, ?_, by norm_num, by norm_num⟩
  rw [hv]
  unfold radial_dist
  dsimp only
  rw [show ((2 : ℝ) ^ 2 + 0 ^ 2) = 2 ^ 2 by norm_num,
      Real.sqrt_sq (by norm_num : (0 : ℝ) ≤ 2)]

/-- C7 (amended): the radius assigned to every off-axis vertex is a linear
interpolation between the start and end radii, but the interpolation
parameter differs per generator.  In `create_tapered_cylinder`
(generate_cue.py) it is the clamped true normalized height measured from the
local bottom `-length/2`.  In `create_cue_section` (create_cue_export.py) it
is `clamp((z_local - z_start)/length)`, which equals the normalized height
only when `z_start = -length/2`.  In `create_cue_stick` (create_cue.py) the
primitive cylinder's two rings (`z = ±length/2`, distance `r_start`) end at
`r_start` for the bottom ring and `r_end` for the top ring — the
interpolation at their normalized heights 0 and 1.  Equal radii always yield
a constant radius. -/
theorem c7_taper_lerp
    (radius_top radius_bottom length : ℝ) (v : ℝ × ℝ × ℝ)
    (h1 : 0 ≤ radius_top) (h2 : 0 ≤ radius_bottom) (h3 : radial_dist v > 0.0001)
    (r_start r_end length2 z_start : ℝ) (w : ℝ × ℝ × ℝ)
    (h4 : 0 ≤ r_start) (h5 : 0 ≤ r_end) (h6 : radial_dist w > 0.001)
    (s_start s_end L : ℝ) (u : ℝ × ℝ × ℝ)
    (h7 : 0 < s_start) (h8 : 0 ≤ s_end) (h9 : radial_dist u = s_start)
    (h10 : 0 < L) (h11 : u.2.2 = L / 2 ∨ u.2.2 = -(L / 2)) :
    radial_dist (create_tapered_cylinder_vertex radius_top radius_bottom length v)
      = radius_bottom + (radius_top - radius_bottom)
          * max 0 (min 1 (if length > 0 then (v.2.2 - -(length / 2)) / length
              else 0.5)) ∧
    (radius_top = radius_bottom →
      radial_dist (create_tapered_cylinder_vertex radius_top radius_bottom length v)
        = radius_bottom) ∧
    radial_dist (create_cue_section_vertex r_start r_end length2 z_start w)
      = r_start + (r_end - r_start)
          * max 0 (min 1 (if length2 > 0 then (w.2.2 - z_start) / length2 else 0)) ∧
    radial_dist (create_cue_stick_vertex s_start s_end u)
      = s_start + (s_end - s_start) * ((u.2.2 + L / 2) / L) := by
  have part1 : radial_dist (create_tapered_cylinder_vertex radius_top radius_bottom
      length v) = radius_bottom + (radius_top - radius_bottom)
        * max 0 (min 1 (if length > 0 then (v.2.2 - -(length / 2)) / length
            else 0.5)) := by
    unfold create_tapered_cylinder_vertex
    dsimp only
    unfold radial_dist at h3
    rw [if_pos h3]
    set t := max (0 : ℝ) (min 1 (if length > 0 then (v.2.2 - -(length / 2)) / length
        else 0.5)) with ht
    have ht0 : 0 ≤ t := le_max_left 0 _
    have ht1 : t ≤ 1 := max_le (by norm_num) (min_le_left 1 _)
    have htarget : 0 ≤ radius_bottom + (radius_top - radius_bottom) * t := by
      nlinarith [mul_nonneg h2 (sub_nonneg.mpr ht1), mul_nonneg h1 ht0]
    exact taper_scale_radial _ v htarget (lt_trans (by norm_num) h3)
  have part3 : radial_dist (create_cue_section_vertex r_start r_end length2 z_start w)
      = r_start + (r_end - r_start)
          * max 0 (min 1 (if length2 > 0 then (w.2.2 - z_start) / length2 else 0)) := by
    unfold create_cue_section_vertex
    dsimp only
    unfold radial_dist at h6
    rw [if_pos h6]
    set t := max (0 : ℝ) (min 1 (if length2 > 0 then (w.2.2 - z_start) / length2
        else 0)) with ht
    have ht0 : 0 ≤ t := le_max_left 0 _
    have ht1 : t ≤ 1 := max_le (by norm_num) (min_le_left 1 _)
    have htarget : 0 ≤ r_start + (r_end - r_start) * t := by
      nlinarith [mul_nonneg h4 (sub_nonneg.mpr ht1), mul_nonneg h5 ht0]
    exact taper_scale_radial _ w htarget (lt_trans (by norm_num) h6)
  have part4 : radial_dist (create_cue_stick_vertex s_start s_end u)
      = s_start + (s_end - s_start) * ((u.2.2 + L / 2) / L) := by
    unfold create_cue_stick_vertex
    rcases h11 with hz | hz
    · have htop : u.2.2 > 0 := by rw [hz]; positivity
      have ht : (u.2.2 + L / 2) / L = 1 := by
        rw [hz, show L / 2 + L / 2 = L by ring, div_self (ne_of_gt h10)]
      rw [ht]
      by_cases hne : s_start = s_end
      · rw [if_neg (fun hc => hc.1 hne), h9, hne]
        ring
      · rw [if_pos ⟨hne, htop⟩,
            radial_dist_scale _ _ _ _ (div_nonneg h8 h7.le)]
        have : radial_dist (u.1, u.2.1, u.2.2) = s_start := h9
        rw [this, div_mul_cancel₀ s_end (ne_of_gt h7)]
        ring
    · have hbot : ¬ (u.2.2 > 0) := by rw [hz]; simp; positivity
      have ht : (u.2.2 + L / 2) / L = 0 := by
        rw [hz, show -(L / 2) + L / 2 = (0 : ℝ) by ring, zero_div]
      rw [ht, if_neg (fun hc => hbot hc.2), h9]
      ring
  exact ⟨part1, fun he => by rw [part1, he]; ring, part3, part4⟩

/-- Witness for the amended C7 on concrete off-axis rim vertices. -/
theorem c7_taper_lerp_witness :
    radial_dist (create_tapered_cylinder_vertex 2 1 2 (1, 0, 1))
      = 1 + (2 - 1)
          * max 0 (min 1 (if (2 : ℝ) > 0 then (((1 : ℝ), (0 : ℝ), (1 : ℝ)).2.2
              - -(2 / 2)) / 2 else 0.5)) ∧
    ((2 : ℝ) = 1 → radial_dist (create_tapered_cylinder_vertex 2 1 2 (1, 0, 1)) = 1) ∧
    radial_dist (create_cue_section_vertex 1 3 2 0 (1, 0, 1))
      = 1 + (3 - 1)
          * max 0 (min 1 (if (2 : ℝ) > 0 then (((1 : ℝ), (0 : ℝ), (1 : ℝ)).2.2 - 0) / 2
              else 0)) ∧
    radial_dist (create_cue_stick_vertex 1 3 (1, 0, 1))
      = 1 + (3 - 1) * ((((1 : ℝ), (0 : ℝ), (1 : ℝ)).2.2 + 2 / 2) / 2) := by
  have hrad : radial_dist ((1 : ℝ), (0 : ℝ), (1 : ℝ)) = 1 := by
    unfold radial_dist
    dsimp only
    rw [show ((1 : ℝ) ^ 2 + 0 ^ 2) = 1 by norm_num, Real.sqrt_one]
  exact c7_taper_lerp 2 1 2 (1, 0, 1) (by norm_num) (by norm_num)
    (by rw [hrad]; norm_num)
    1 3 2 0 (1, 0, 1) (by norm_num) (by norm_num) (by rw [hrad]; norm_num)
    1 3 2 (1, 0, 1) (by norm_num) (by norm_num) hrad (by norm_num)
    (Or.inl (by norm_num))

/-! ## UV inspection utility — check_uv_dimensions.py -/

/-- Blender object types as far as the utility distinguishes them. -/
inductive BObjType
  | MESH
  | OTHER
deriving DecidableEq

/-- An object as `get_uv_pixel_dimensions` sees it: its type, its name, and
its active UV layer when one exists (`none` models a mesh without UV
layers), given as the per-face loop UV lists the face loop reads. -/
structure InspectObject where
  type : BObjType
  name : String
  uvFaces : Option (List (List (ℚ × ℚ)))

/-- The Blender context the utility reads: the active object and the scene
object list. -/
structure InspectContext where
  active_object : Option InspectObject
  scene_objects : List InspectObject

/-- Object selection of lines 12-19: the active object if any, otherwise the
first MESH object of the scene. -/
def inspect_target (ctx : InspectContext) : Option InspectObject :=
  match ctx.active_object with
  | some o => some o
  | none => ctx.scene_objects.find? (fun o => decide (o.type = BObjType.MESH))

/-- Python float formatting (`:.4f`, `:.2f`) abstracted as exact rational
rendering; no claim depends on the rendered digits. -/
def fmt (q : ℚ) : String := toString q

/-- Python `int(...)` on a float: truncation toward zero. -/
def pyint (q : ℚ) : ℤ := if q < 0 then -(Int.floor (-q)) else Int.floor q

/-- Python `round(...)`: Python rounds half to even, which differs from
Mathlib `round` only on exact half ties; no claim depends on those. -/
def pyround (q : ℚ) : ℤ := round q

/-- Python `min` over a nonempty rational list. -/
def pyminQ : List ℚ → ℚ
  | [] => 0
  | x :: xs => xs.foldl min x

/-- Python `max` over a nonempty rational list. -/
def pymaxQ : List ℚ → ℚ
  | [] => 0
  | x :: xs => xs.foldl max x

/-- Shallow embedding of `get_uv_pixel_dimensions()` (lines 7-129).  Faces
whose average loop V exceeds 0.45 are binned as the side rectangle, the rest
as the caps; the report is a list of strings. -/
def get_uv_pixel_dimensions (ctx : InspectContext) : List String :=
  match inspect_target ctx with
  | none => ["ERROR: No mesh object found!", "Please import cue.glb first."]
  | some obj =>
    if obj.type ≠ BObjType.MESH then
      ["ERROR: No mesh object found!", "Please import cue.glb first."]
    else
      match obj.uvFaces with
      | none => ["ERROR: Mesh has no UV layers!"]
      | some faces =>
        let avg_v := fun fuv : List (ℚ × ℚ) =>
          (fuv.map Prod.snd).sum / (fuv.length : ℚ)
        let rect_uvs := (faces.filter (fun fuv => decide (avg_v fuv > 0.45))).flatten
        let circle_uvs :=
          (faces.filter (fun fuv => decide (¬ (avg_v fuv > 0.45)))).flatten
        if rect_uvs.length = 0 then
          ["ERROR: No rectangle UVs found!", "Try adjusting threshold."]
        else
          let rect_min_u := pyminQ (rect_uvs.map Prod.fst)
          let rect_max_u := pymaxQ (rect_uvs.map Prod.fst)
          let rect_min_v := pyminQ (rect_uvs.map Prod.snd)
          let rect_max_v := pymaxQ (rect_uvs.map Prod.snd)
          let rect_width := rect_max_u - rect_min_u
          let rect_height := rect_max_v - rect_min_v
          let rect_aspect := if rect_height > 0 then rect_width / rect_height else 1
          let circ_min_u :=
            if circle_uvs.isEmpty then 0 else pyminQ (circle_uvs.map Prod.fst)
          let circ_max_u :=
            if circle_uvs.isEmpty then 0 else pymaxQ (circle_uvs.map Prod.fst)
          let circ_min_v :=
            if circle_uvs.isEmpty then 0 else pyminQ (circle_uvs.map Prod.snd)
          let circ_max_v :=
            if circle_uvs.isEmpty then 0 else pymaxQ (circle_uvs.map Prod.snd)
          ["Object: " ++ obj.name, ""]
          ++ ["═══ RECTANGLE (Side) ═══",
              "UV Points: " ++ toString rect_uvs.length,
              "U: " ++ fmt rect_min_u ++ " → " ++ fmt rect_max_u,
              "V: " ++ fmt rect_min_v ++ " → " ++ fmt rect_max_v,
              "Width: " ++ fmt rect_width,
              "Height: " ++ fmt rect_height,
              "Aspect: " ++ fmt rect_aspect ++ ":1",
              ""]
          ++ ["═══ CIRCLES (Caps) ═══",
              "UV Points: " ++ toString circle_uvs.length]
          ++ (if circle_uvs.isEmpty then [] else
              ["U: " ++ fmt circ_min_u ++ " → " ++ fmt circ_max_u,
               "V: " ++ fmt circ_min_v ++ " → " ++ fmt circ_max_v])
          ++ [""]
          ++ ["═══ PIXEL DIMENSIONS ═══",
              "(Rectangle only, 1:1 mapping)",
              ""]
          ++ ([512, 1024, 2048, 4096].map (fun base =>
              "  " ++ toString base ++ "px → " ++ toString (pyint (base * rect_width))
                ++ " × " ++ toString (pyint (base * rect_height))))
          ++ ["",
              "═══ RECOMMENDATION ═══",
              "surface.jpg: " ++ toString (pyround (2048 * rect_width)) ++ " × "
                ++ toString (pyround (2048 * rect_height)),
              "Aspect ratio: " ++ fmt rect_aspect ++ ":1",
              "",
              "═══ FOR main.js ═══",
              "Rect V range: " ++ fmt rect_min_v ++ " to " ++ fmt rect_max_v,
              "Apply texture only where V > 0.45"]

/-! ### C9 (corrected) -/

/-- C9 counterexample: with no mesh in the context the utility does return a
two-entry list, but its second entry, the guidance line, does not begin with
"ERROR:" — so not every entry of the returned list is an ERROR message. -/
theorem c9_counterexample :
    get_uv_pixel_dimensions ⟨none, []⟩
      = ["ERROR: No mesh object found!", "Please import cue.glb first."] ∧
    ¬ ("Please import cue.glb first.".take 6 = "ERROR:") := by
  exact ⟨rfl, by decide⟩

/-- C9 (amended): in both failure cases — no mesh object found, or a mesh
with no UV layer — `get_uv_pixel_dimensions` returns normally with a fixed,
human-readable message list whose first entry begins with "ERROR:" (the
no-mesh case adds a second guidance line that does not carry the prefix). -/
theorem c9_error_messages (ctx : InspectContext)
    (h : inspect_target ctx = none
       ∨ (∃ obj, inspect_target ctx = some obj ∧ obj.type ≠ BObjType.MESH)
       ∨ (∃ obj, inspect_target ctx = some obj ∧ obj.type = BObjType.MESH
            ∧ obj.uvFaces = none)) :
    (get_uv_pixel_dimensions ctx
        = ["ERROR: No mesh object found!", "Please import cue.glb first."]
      ∨ get_uv_pixel_dimensions ctx = ["ERROR: Mesh has no UV layers!"]) ∧
    ∃ s rest, get_uv_pixel_dimensions ctx = s :: rest ∧ s.take 6 = "ERROR:" := by
  have hcases : get_uv_pixel_dimensions ctx
      = ["ERROR: No mesh object found!", "Please import cue.glb first."]
      ∨ get_uv_pixel_dimensions ctx = ["ERROR: Mesh has no UV layers!"] := by
    rcases h with h | ⟨obj, hobj, htype⟩ | ⟨obj, hobj, htype, huv⟩
    · left
      unfold get_uv_pixel_dimensions
      rw [h]
    · left
      unfold get_uv_pixel_dimensions
      rw [hobj]
      simp only [if_pos htype]
    · right
      unfold get_uv_pixel_dimensions
      rw [hobj]
      simp only [htype]
      rw [if_neg (by simp), huv]
  refine ⟨hcases, ?_⟩
  rcases hcases with hc | hc
  · exact ⟨_, _, hc, by decide⟩
  · exact ⟨_, _, hc, by decide⟩

/-- Witness for the amended C9 on an empty context (no mesh anywhere). -/
theorem c9_error_messages_witness :
    (get_uv_pixel_dimensions ⟨none, []⟩
        = ["ERROR: No mesh object found!", "Please import cue.glb first."]
      ∨ get_uv_pixel_dimensions ⟨none, []⟩ = ["ERROR: Mesh has no UV layers!"]) ∧
    ∃ s rest, get_uv_pixel_dimensions ⟨none, []⟩ = s :: rest ∧ s.take 6 = "ERROR:" :=
  c9_error_messages ⟨none, []⟩ (Or.inl rfl)
